import Mathlib

/-!
Verification development for the TravelTide customer-segmentation pipeline.

We shallowly embed the core preprocessing and evaluation functions of the
repository (`src/traveltide/eda/preprocess.py`,
`src/traveltide/features/user_features.py`,
`src/traveltide/segmentation/pipeline.py`,
`src/traveltide/segmentation/evaluation.py`) and prove the specified
properties about them.

Modelling conventions:
- A pandas DataFrame is a `DF`: a list of column names plus a list of rows,
  each row an association list from column name to an optional rational.
  `none` models a null cell (NaN/NaT/pd.NA); all scalar cell values
  (numerics, timestamps as epoch seconds, and opaque dimension values)
  are modelled as rationals, so `pd.to_numeric(..., errors="coerce")` and
  `pd.to_datetime(..., errors="coerce")` act as the identity on cells.
- Fallible Python code (KeyError / ValueError raises) is modelled with
  `Except Err`.
- Calls into scikit-learn (StandardScaler / PCA / KMeans fits, silhouette,
  adjusted rand score) are external library calls; they are taken as
  function parameters of the embedded evaluation code, so the theorems
  hold for every behaviour of the library.
-/

namespace Traveltide

/-- Python exceptions raised by the embedded code. -/
inductive Err where
  | keyError (msg : String)
  | valueError (msg : String)
deriving DecidableEq, Repr

/-- A DataFrame row: association list from column name to optional cell value. -/
abbrev Row : Type := List (String × Option ℚ)

/-- A DataFrame: schema (column names) plus rows. -/
structure DF where
  columns : List String
  rows : List Row
deriving DecidableEq, Repr

/-- Read a cell; a key absent from the row reads as null (as does a stored null). -/
def cellOf (r : Row) (c : String) : Option ℚ :=
  match r.lookup c with
  | some v => v
  | none => none

/-- The values of one column, in row order. -/
def colVals (df : DF) (c : String) : List (Option ℚ) :=
  df.rows.map (fun r => cellOf r c)

/-- Overwrite one cell of a row (pandas `out.loc[i, c] = v` on that row):
replace the first binding of the column, or append one when absent. -/
def setCell (r : Row) (c : String) (v : Option ℚ) : Row :=
  match r with
  | [] => [(c, v)]
  | (k, w) :: rest => if k = c then (c, v) :: rest else (k, w) :: setCell rest c v

/-- `rows_before/rows_after/rows_removed` audit record
(`RuleImpact` in `src/traveltide/eda/dq_report.py`). -/
structure RuleImpact where
  rows_before : Int
  rows_after : Int
  rows_removed : Int
deriving DecidableEq, Repr

/-! ## Configuration model (`src/traveltide/eda/config.py`) -/

/-- Cohort selection rules (`CohortConfig`). -/
structure CohortConfig where
  sign_up_date_start : String
  sign_up_date_end : String
deriving DecidableEq, Repr

/-- Data extraction controls (`ExtractionConfig`). -/
structure ExtractionConfig where
  session_start_min : Option String
  min_sessions : Option Int
  min_page_clicks : Option Int
deriving DecidableEq, Repr

/-- Cleaning policies for known anomalies (`CleaningConfig`). -/
structure CleaningConfig where
  invalid_hotel_nights_policy : String
deriving DecidableEq, Repr

/-- Outlier detection/removal settings (`OutliersConfig`). -/
structure OutliersConfig where
  method : String
  iqr_multiplier : ℚ
  zscore_threshold : ℚ
  columns : List String
deriving DecidableEq, Repr

/-- Report rendering settings (`ReportConfig`). -/
structure ReportConfig where
  title : String
  output_format : String
  include_sample_rows : Int
deriving DecidableEq, Repr

/-- Top-level EDA configuration object (`EDAConfig`). -/
structure EDAConfig where
  cohort : CohortConfig
  extraction : ExtractionConfig
  cleaning : CleaningConfig
  outliers : OutliersConfig
  report : ReportConfig
deriving DecidableEq, Repr

/-! ## Outlier removal (`remove_outliers`, preprocess.py lines 448-505)

`pd.Series.quantile` drops nulls, sorts the remaining values and applies
linear interpolation between order statistics; `quantileSorted` is that
interpolation on an already-sorted list of the non-null values. -/

/-- Ascending sort of the non-null values of a column. -/
def sortedVals (vals : List (Option ℚ)) : List ℚ :=
  (vals.filterMap id).insertionSort (· ≤ ·)

/-- Linearly interpolated quantile of a sorted nonempty list
(pandas default interpolation "linear"). -/
def quantileSorted (s : List ℚ) (q : ℚ) : ℚ :=
  let n := s.length
  let pos := q * ((n : ℚ) - 1)
  let i := (Int.floor pos).toNat
  let frac := pos - (i : ℚ)
  let lo := s.getD i 0
  let hi := s.getD (i + 1) lo
  lo + frac * (hi - lo)

/-- The IQR keep interval `[Q1 - m*IQR, Q3 + m*IQR]` of a column, or `none`
when the column is skipped (no non-null values, or zero IQR). -/
def iqrBounds (vals : List (Option ℚ)) (m : ℚ) : Option (ℚ × ℚ) :=
  let s := sortedVals vals
  if s.isEmpty then none
  else
    let q1 := quantileSorted s (1 / 4)
    let q3 := quantileSorted s (3 / 4)
    let iqr := q3 - q1
    if iqr = 0 then none
    else some (q1 - m * iqr, q3 + m * iqr)

/-- Keep-mask of the IQR method over one column: keep when null or inside the
interval; `none` when the column is skipped as degenerate. -/
def iqrKeepMask (vals : List (Option ℚ)) (m : ℚ) : Option (List Bool) :=
  match iqrBounds vals m with
  | none => none
  | some (lo, hi) =>
      some (vals.map (fun v =>
        match v with
        | none => true
        | some x => decide (lo ≤ x ∧ x ≤ hi)))

/-- Population mean of the non-null values (`Series.mean`), `none` when empty. -/
def meanOpt (vals : List (Option ℚ)) : Option ℚ :=
  let xs := vals.filterMap id
  if xs.length = 0 then none else some (xs.sum / (xs.length : ℚ))

/-- Population variance (`std(ddof=0)` squared) of the non-null values. -/
def popVar (xs : List ℚ) : ℚ :=
  let n := xs.length
  let mu := xs.sum / (n : ℚ)
  (xs.map (fun x => (x - mu) ^ 2)).sum / (n : ℚ)

/-- Keep-mask of the z-score method: the code keeps `|x - mu| / sigma <= t`
(or null); with `sigma = sqrt(var) > 0` this is exactly
`0 <= t and (x - mu)^2 <= t^2 * var`, which is the rational form used here.
`none` when skipped (no non-null values or zero variance). -/
def zscoreKeepMask (vals : List (Option ℚ)) (t : ℚ) : Option (List Bool) :=
  let xs := vals.filterMap id
  if xs.isEmpty then none
  else
    let mu := xs.sum / (xs.length : ℚ)
    let v := popVar xs
    if v = 0 then none
    else
      some (vals.map (fun w =>
        match w with
        | none => true
        | some x => decide (0 ≤ t ∧ (x - mu) ^ 2 ≤ t ^ 2 * v)))

/-- The keep-mask of one configured column under the configured method,
`none` when the column is skipped as degenerate. Only called with a valid
method. -/
def colKeepOpt (cfg : OutliersConfig) (rows : List Row) (c : String) :
    Option (List Bool) :=
  let vals := rows.map (fun r => cellOf r c)
  if cfg.method = "iqr" then iqrKeepMask vals cfg.iqr_multiplier
  else zscoreKeepMask vals cfg.zscore_threshold

/-- Pointwise conjunction of keep-masks (`mask_keep &= keep`). -/
def andMask (a b : List Bool) : List Bool :=
  List.zipWith (· && ·) a b

/-- Number of `true` entries of a mask (`int(mask.sum())`). -/
def countTrue (m : List Bool) : Nat :=
  m.countP (fun b => b)

/-- The per-column loop body of `remove_outliers`: fold the keep-mask of each
column into the cumulative mask and record a `RuleImpact` per processed
column; raise `ValueError` on an unknown method (checked inside the loop,
as in the source). -/
def removeOutliersLoop (cfg : OutliersConfig) (rows : List Row) :
    List String → List Bool → List (String × RuleImpact) →
    Except Err (List Bool × List (String × RuleImpact))
  | [], mask, rules => .ok (mask, rules)
  | c :: rest, mask, rules =>
    if cfg.method = "iqr" ∨ cfg.method = "zscore" then
      match colKeepOpt cfg rows c with
      | none => removeOutliersLoop cfg rows rest mask rules
      | some keep =>
          let rowsBefore := countTrue mask
          let mask' := andMask mask keep
          let rowsAfter := countTrue mask'
          removeOutliersLoop cfg rows rest mask'
            (rules ++ [(c, ⟨(rowsBefore : Int), (rowsAfter : Int),
              (rowsBefore : Int) - (rowsAfter : Int)⟩)])
    else
      .error (.valueError "outliers.method must be one of: iqr, zscore")

/-- Restrict rows to the entries of the mask that are `true`
(`out.loc[mask_keep]`). -/
def filterByMask (rows : List Row) (mask : List Bool) : List Row :=
  ((rows.zip mask).filter (fun p => p.2)).map (fun p => p.1)

/-- `remove_outliers(df, config)`: per configured present column, intersect
keep-masks in configured order and return the restricted frame plus one
`RuleImpact` per processed column. -/
def removeOutliers (df : DF) (cfg : EDAConfig) :
    Except Err (DF × List (String × RuleImpact)) :=
  let cols := cfg.outliers.columns.filter (fun c => df.columns.contains c)
  if cols.isEmpty then .ok (df, [])
  else
    match removeOutliersLoop cfg.outliers df.rows cols
        (df.rows.map (fun _ => true)) [] with
    | .error e => .error e
    | .ok (mask, rules) =>
        .ok ({ df with rows := filterByMask df.rows mask }, rules)

/-! ## Validity & cleaning engine
(`fix_invalid_hotel_nights`, `detect_duplicate_sessions`, `_range_check`,
`_datetime_order_check`, `apply_validity_rules`; preprocess.py 187-444) -/

/-- The constant rationale string of all flag-only checks
(`_validation_rationale`). -/
def validationRationale : String :=
  "Exploratory EDA: flag anomalies for review while retaining rows for analysis."

/-- An entry of the `nights` column parsed numerically; `some v` iff non-null. -/
def nightsVal (r : Row) : Option ℚ :=
  cellOf r "nights"

/-- The invalid-nights predicate: null or `<= 0`
(`nights.isna() | (nights <= 0)`). -/
def invalidNightsRow (r : Row) : Bool :=
  match nightsVal r with
  | none => true
  | some v => decide (v ≤ 0)

/-- The recompute value for an invalid `nights` entry:
`ceil((check_out_time - check_in_time) / 1 day)` kept only when `>= 1`
(`np.ceil(... / 86400.0)` then `.where(recomputed >= 1)`); null when either
timestamp is null. -/
def recomputeNights (r : Row) : Option ℚ :=
  match cellOf r "check_in_time", cellOf r "check_out_time" with
  | some ci, some co =>
      let d : ℚ := (Int.ceil ((co - ci) / 86400) : ℚ)
      if 1 ≤ d then some d else none
  | _, _ => none

/-- `fix_invalid_hotel_nights(df, policy)` (preprocess.py 187-232): returns the
frame unchanged when `nights` is absent, drops invalid rows under `drop`,
rejects unknown policies with `ValueError`, and otherwise recomputes the
invalid entries from the check-in/check-out timestamps (reading a missing
timestamp column raises `KeyError`). -/
def fixInvalidHotelNights (df : DF) (policy : String) : Except Err DF :=
  if ¬ df.columns.contains "nights" then .ok df
  else if policy = "drop" then
    .ok { df with rows := df.rows.filter (fun r => ¬ invalidNightsRow r) }
  else if policy ≠ "recompute" then
    .error (.valueError
      "cleaning.invalid_hotel_nights_policy must be one of: recompute, drop")
  else if ¬ df.columns.contains "check_in_time" then
    .error (.keyError "check_in_time")
  else if ¬ df.columns.contains "check_out_time" then
    .error (.keyError "check_out_time")
  else
    .ok { df with rows := df.rows.map (fun r =>
      if invalidNightsRow r then setCell r "nights" (recomputeNights r) else r) }

/-- Result of `detect_duplicate_sessions`. -/
structure DupCheck where
  keys : List String
  decision : String
  action : String
  rationale : String
  status : String
  reason : Option String
  duplicate_rows : Int
  rows_in_duplicate_groups : Int
  duplicate_groups : Int
deriving DecidableEq, Repr

/-- `_resolve_duplicate_keys`: key-set priority order. -/
def resolveDuplicateKeys (df : DF) : List String × Option String :=
  if df.columns.contains "session_id" then (["session_id"], none)
  else if ["user_id", "session_start", "session_end"].all
      (fun c => df.columns.contains c) then
    (["user_id", "session_start", "session_end"], none)
  else if ["user_id", "session_start"].all (fun c => df.columns.contains c) then
    (["user_id", "session_start"], none)
  else ([], some "Missing session identifier columns for duplicate detection.")

/-- Count of elements that have already occurred earlier in the list
(`duplicated(keep="first")`). -/
def countDupFirstAux [DecidableEq α] (seen : List α) : List α → Nat
  | [] => 0
  | x :: xs =>
      (if x ∈ seen then 1 else 0) + countDupFirstAux (x :: seen) xs

/-- `detect_duplicate_sessions(df)`: duplicate counts over the resolved key
set, flag-only. -/
def detectDuplicateSessions (df : DF) : DupCheck :=
  let (keys, reason) := resolveDuplicateKeys df
  if keys.isEmpty then
    { keys := keys, decision := "flag_only", action := "retained"
      rationale := validationRationale, status := "skipped", reason := reason
      duplicate_rows := 0, rows_in_duplicate_groups := 0, duplicate_groups := 0 }
  else
    let tuples := df.rows.map (fun r => keys.map (fun c => cellOf r c))
    { keys := keys, decision := "flag_only", action := "retained"
      rationale := validationRationale, status := "evaluated", reason := none
      duplicate_rows := (countDupFirstAux [] tuples : Int)
      rows_in_duplicate_groups :=
        (tuples.countP (fun t => 1 < tuples.count t) : Int)
      duplicate_groups :=
        (tuples.dedup.countP (fun t => 1 < tuples.count t) : Int) }

/-- Result of `_range_check`. -/
structure RangeCheck where
  column : String
  min_allowed : Option ℚ
  max_allowed : Option ℚ
  decision : String
  action : String
  rationale : String
  status : String
  reason : Option String
  invalid_count : Int
deriving DecidableEq, Repr

/-- `_range_check(df, column, min_value, max_value)`: count non-null values
outside the bounds; skipped when the column is absent. -/
def rangeCheck (df : DF) (column : String)
    (minValue maxValue : Option ℚ) : RangeCheck :=
  if ¬ df.columns.contains column then
    { column := column, min_allowed := minValue, max_allowed := maxValue
      decision := "flag_only", action := "retained"
      rationale := validationRationale, status := "skipped"
      reason := some "Column not available for range check.", invalid_count := 0 }
  else
    let bad := (colVals df column).countP (fun v =>
      match v with
      | none => false
      | some x =>
          (match minValue with | some m => decide (x < m) | none => false) ||
          (match maxValue with | some m => decide (m < x) | none => false))
    { column := column, min_allowed := minValue, max_allowed := maxValue
      decision := "flag_only", action := "retained"
      rationale := validationRationale, status := "evaluated", reason := none
      invalid_count := (bad : Int) }

/-- Result of `_datetime_order_check`. -/
structure OrderCheck where
  name : String
  comparison : String
  decision : String
  action : String
  rationale : String
  status : String
  reason : Option String
  invalid_count : Int
deriving DecidableEq, Repr

/-- `_datetime_order_check(df, name, earlier_col, later_col, comparison)`:
count rows where both timestamps parse and `later < earlier`. -/
def datetimeOrderCheck (df : DF) (name earlierCol laterCol comparison : String) :
    OrderCheck :=
  if ¬ df.columns.contains earlierCol ∨ ¬ df.columns.contains laterCol then
    { name := name, comparison := comparison, decision := "flag_only"
      action := "retained", rationale := validationRationale
      status := "skipped"
      reason := some "Required columns missing for logical check."
      invalid_count := 0 }
  else
    let bad := df.rows.countP (fun r =>
      match cellOf r earlierCol, cellOf r laterCol with
      | some e, some l => decide (l < e)
      | _, _ => false)
    { name := name, comparison := comparison, decision := "flag_only"
      action := "retained", rationale := validationRationale
      status := "evaluated", reason := none, invalid_count := (bad : Int) }

/-- The nested `validation_checks` payload of `apply_validity_rules`. -/
structure ValidationChecks where
  duplicates : DupCheck
  range_session_duration_sec : RangeCheck
  range_age_years : RangeCheck
  range_nights : RangeCheck
  range_rooms : RangeCheck
  range_seats : RangeCheck
  session_end_before_start : OrderCheck
  birthdate_after_session_start : OrderCheck
deriving DecidableEq, Repr

/-- Build the `validation_checks` structure exactly as `apply_validity_rules`
does. -/
def buildValidationChecks (df : DF) : ValidationChecks :=
  { duplicates := detectDuplicateSessions df
    range_session_duration_sec :=
      rangeCheck df "session_duration_sec" (some 0) none
    range_age_years := rangeCheck df "age_years" (some 0) (some 120)
    range_nights := rangeCheck df "nights" (some 1) none
    range_rooms := rangeCheck df "rooms" (some 1) none
    range_seats := rangeCheck df "seats" (some 1) none
    session_end_before_start :=
      datetimeOrderCheck df "session_end_before_start" "session_start"
        "session_end" "session_end < session_start"
    birthdate_after_session_start :=
      datetimeOrderCheck df "birthdate_after_session_start" "birthdate"
        "session_start" "birthdate > session_start" }

/-- The `invalid_hotel_nights_meta` dictionary: empty when `nights` is
absent, else the drop- or recompute-branch record. -/
inductive AnomalyMeta where
  | empty
  | dropPolicy (invalid_detected dropped_rows : Int)
  | recomputePolicy (invalid_detected recomputed_success still_missing : Int)
deriving DecidableEq, Repr

/-- `invalid_detected` field of the anomaly metadata, when present. -/
def AnomalyMeta.invalidDetected : AnomalyMeta → Option Int
  | .empty => none
  | .dropPolicy d _ => some d
  | .recomputePolicy d _ _ => some d

/-- `still_missing` field of the anomaly metadata, when present. -/
def AnomalyMeta.stillMissing : AnomalyMeta → Option Int
  | .empty => none
  | .dropPolicy _ _ => none
  | .recomputePolicy _ _ s => some s

/-- The four outputs of `apply_validity_rules`. -/
structure ValidityResult where
  df : DF
  rules : List (String × RuleImpact)
  meta : AnomalyMeta
  checks : ValidationChecks
deriving DecidableEq, Repr

/-- `apply_validity_rules(df, config)` (preprocess.py 358-444): run the
flag-only checks, then apply the configured invalid-hotel-nights policy when
the `nights` column exists, recording its `RuleImpact` and metadata. -/
def applyValidityRules (df : DF) (config : EDAConfig) :
    Except Err ValidityResult :=
  let checks := buildValidationChecks df
  if ¬ df.columns.contains "nights" then
    .ok { df := df, rules := [], meta := .empty, checks := checks }
  else
    let invalidDetected := df.rows.countP invalidNightsRow
    let rowsBefore := df.rows.length
    let policy := config.cleaning.invalid_hotel_nights_policy
    if policy = "drop" then
      let out := { df with rows := df.rows.filter (fun r => ¬ invalidNightsRow r) }
      let rowsAfter := out.rows.length
      .ok { df := out
            rules := [("invalid_hotel_nights",
              ⟨(rowsBefore : Int), (rowsAfter : Int),
               (rowsBefore : Int) - (rowsAfter : Int)⟩)]
            meta := .dropPolicy (invalidDetected : Int) (invalidDetected : Int)
            checks := checks }
    else
      match fixInvalidHotelNights df policy with
      | .error e => .error e
      | .ok fixed =>
          let recomputedSuccess := (df.rows.zip fixed.rows).countP (fun p =>
            invalidNightsRow p.1 &&
              (match cellOf p.2 "nights" with
               | some v => decide (1 ≤ v)
               | none => false))
          let rowsAfter := fixed.rows.length
          .ok { df := fixed
                rules := [("invalid_hotel_nights",
                  ⟨(rowsBefore : Int), (rowsAfter : Int),
                   (rowsBefore : Int) - (rowsAfter : Int)⟩)]
                meta := .recomputePolicy (invalidDetected : Int)
                  (recomputedSuccess : Int)
                  ((invalidDetected : Int) - (recomputedSuccess : Int))
                checks := checks }

/-! ## Aggregation engine (`aggregate_user_level`, preprocess.py 509-559)
and feature engine (`build_user_features`, features/user_features.py 41-156)

`groupby("user_id", dropna=False)` groups all null keys into one group and
sorts group keys ascending with the null group last. -/

/-- Group-key order used by pandas `groupby(sort=True, dropna=False)`:
numeric ascending, the null group last. -/
def keyLE (a b : Option ℚ) : Prop :=
  match a, b with
  | some x, some y => x ≤ y
  | some _, none => True
  | none, some _ => False
  | none, none => True

instance : DecidableRel keyLE := fun a b => by
  unfold keyLE
  cases a <;> cases b <;> infer_instance

/-- The distinct `user_id` group keys, in pandas group order. -/
def groupKeys (df : DF) : List (Option ℚ) :=
  ((df.rows.map (fun r => cellOf r "user_id")).dedup).insertionSort keyLE

/-- The rows of one `user_id` group, in original row order. -/
def groupRows (df : DF) (k : Option ℚ) : List Row :=
  df.rows.filter (fun r => cellOf r "user_id" = k)

/-- `SeriesGroupBy.nunique()` (dropna=True): distinct non-null values. -/
def nuniqueDropna (vals : List (Option ℚ)) : Nat :=
  (vals.filterMap id).dedup.length

/-- The column values of a group. -/
def groupVals (df : DF) (k : Option ℚ) (c : String) : List (Option ℚ) :=
  (groupRows df k).map (fun r => cellOf r c)

/-- `_first_non_null` (user_features.py): first non-null value of the group
in original row order, else null. -/
def firstNonNull (vals : List (Option ℚ)) : Option ℚ :=
  (vals.filterMap id).head?

/-- The metric columns `aggregate_user_level` reads unconditionally via
`g[col]`; reading any of them on a frame that lacks the column raises
`KeyError` from pandas, in this order of evaluation. -/
def aggregateMetricCols : List String :=
  ["session_id", "page_clicks", "flight_booked", "hotel_booked",
   "cancellation", "base_fare_usd", "hotel_per_room_usd", "nights",
   "rooms", "seats"]

/-- The dimension columns carried forward by "first non-null". -/
def dimCols : List String :=
  ["gender", "married", "has_children", "home_country", "home_city",
   "home_airport", "sign_up_date", "birthdate"]

/-- The fixed metric output columns of `aggregate_user_level`, in
construction order. -/
def aggregateOutputCols : List String :=
  ["user_id", "n_sessions", "avg_page_clicks", "p_flight_booked",
   "p_hotel_booked", "p_cancellation_session", "avg_base_fare_usd",
   "avg_hotel_per_room_usd", "avg_nights", "avg_rooms", "avg_seats"]

/-- One output row of `aggregate_user_level` for a group key. -/
def aggregateRowFor (df : DF) (dims : List String) (k : Option ℚ) : Row :=
  [("user_id", k),
   ("n_sessions", some ((nuniqueDropna (groupVals df k "session_id") : ℚ))),
   ("avg_page_clicks", meanOpt (groupVals df k "page_clicks")),
   ("p_flight_booked", meanOpt (groupVals df k "flight_booked")),
   ("p_hotel_booked", meanOpt (groupVals df k "hotel_booked")),
   ("p_cancellation_session", meanOpt (groupVals df k "cancellation")),
   ("avg_base_fare_usd", meanOpt (groupVals df k "base_fare_usd")),
   ("avg_hotel_per_room_usd", meanOpt (groupVals df k "hotel_per_room_usd")),
   ("avg_nights", meanOpt (groupVals df k "nights")),
   ("avg_rooms", meanOpt (groupVals df k "rooms")),
   ("avg_seats", meanOpt (groupVals df k "seats"))]
  ++ dims.map (fun c => (c, firstNonNull (groupVals df k c)))

/-- `aggregate_user_level(df)`: `KeyError` when `user_id` is absent; then the
metric columns are read unconditionally (pandas raises `KeyError` on the
first missing one); dimension columns are attached only when present. -/
def aggregateUserLevel (df : DF) : Except Err DF :=
  if ¬ df.columns.contains "user_id" then
    .error (.keyError "Expected user_id column for aggregation")
  else
    match aggregateMetricCols.find? (fun c => ¬ df.columns.contains c) with
    | some c => .error (.keyError ("Column not found: " ++ c))
    | none =>
        let dims := dimCols.filter (fun c => df.columns.contains c)
        .ok { columns := aggregateOutputCols ++ dims
              rows := (groupKeys df).map (aggregateRowFor df dims) }

/-- `_rate_positive` (user_features.py): fraction of the non-null values that
are `> 0`; null when the group has no non-null value. -/
def ratePositive (vals : List (Option ℚ)) : Option ℚ :=
  let xs := vals.filterMap id
  if xs.length = 0 then none
  else some (((xs.countP (fun x => 0 < x)) : ℚ) / (xs.length : ℚ))

/-- `_session_span_days` (user_features.py): `(max - min) / 1 day` over the
non-null session-start timestamps; null when all are null. -/
def sessionSpanDays (vals : List (Option ℚ)) : Option ℚ :=
  let xs := vals.filterMap id
  match xs.max?, xs.min? with
  | some hi, some lo => some ((hi - lo) / 86400)
  | _, _ => none

/-- `(feature name, source column)` pairs aggregated with `_mean_numeric`
in `build_user_features`, in insertion order. -/
def buildMeanFeatures : List (String × String) :=
  [("avg_page_clicks", "page_clicks"),
   ("avg_session_duration_sec", "session_duration_sec"),
   ("avg_base_fare_usd", "base_fare_usd"),
   ("avg_hotel_per_room_usd", "hotel_per_room_usd"),
   ("avg_nights", "nights"),
   ("avg_rooms", "rooms"),
   ("avg_seats", "seats"),
   ("avg_checked_bags", "checked_bags"),
   ("avg_flight_discount", "flight_discount"),
   ("avg_hotel_discount", "hotel_discount"),
   ("avg_flight_discount_amount", "flight_discount_amount"),
   ("avg_hotel_discount_amount", "hotel_discount_amount"),
   ("avg_customer_tenure_days", "customer_tenure_days"),
   ("avg_age_years", "age_years")]

/-- `(feature name, source column)` pairs aggregated with `_rate_mean`. -/
def buildRateFeatures : List (String × String) :=
  [("p_flight_booked", "flight_booked"),
   ("p_hotel_booked", "hotel_booked"),
   ("p_cancellation_session", "cancellation"),
   ("p_return_flight_booked", "return_flight_booked")]

/-- `(feature name, source column)` pairs aggregated with `_rate_positive`. -/
def buildDiscountRateFeatures : List (String × String) :=
  [("p_flight_discount", "flight_discount"),
   ("p_hotel_discount", "hotel_discount")]

/-- `min` of the non-null timestamps of a group (`SeriesGroupBy.min`). -/
def minOpt (vals : List (Option ℚ)) : Option ℚ :=
  (vals.filterMap id).min?

/-- `max` of the non-null timestamps of a group (`SeriesGroupBy.max`). -/
def maxOpt (vals : List (Option ℚ)) : Option ℚ :=
  (vals.filterMap id).max?

/-- One output row of `build_user_features` for a group key (after
`reset_index`, `user_id` first, features in assignment order). -/
def buildFeatureRowFor (df : DF) (dims : List String) (k : Option ℚ) : Row :=
  let nSessions := nuniqueDropna (groupVals df k "session_id")
  let span := if df.columns.contains "session_start" then
      sessionSpanDays (groupVals df k "session_start")
    else none
  [("user_id", k),
   ("n_sessions", some (nSessions : ℚ)),
   ("n_trips",
     if df.columns.contains "trip_id" then
       some ((nuniqueDropna (groupVals df k "trip_id") : ℚ))
     else some 0)]
  ++ buildMeanFeatures.map (fun p =>
      (p.1, if df.columns.contains p.2 then meanOpt (groupVals df k p.2)
            else none))
  ++ buildRateFeatures.map (fun p =>
      (p.1, if df.columns.contains p.2 then meanOpt (groupVals df k p.2)
            else none))
  ++ buildDiscountRateFeatures.map (fun p =>
      (p.1, if df.columns.contains p.2 then ratePositive (groupVals df k p.2)
            else none))
  ++ [("first_session_ts",
        if df.columns.contains "session_start" then
          minOpt (groupVals df k "session_start")
        else none),
      ("last_session_ts",
        if df.columns.contains "session_start" then
          maxOpt (groupVals df k "session_start")
        else none),
      ("session_span_days", span),
      ("sessions_per_active_day",
        match span with
        | some s => some ((nSessions : ℚ) / (s + 1))
        | none => none)]
  ++ dims.map (fun c => (c, firstNonNull (groupVals df k c)))

/-- `build_user_features(df)`: `KeyError` when `user_id` is absent;
`n_sessions` reads `session_id` unconditionally (pandas `KeyError` when
absent); every other source column is presence-checked, with missing
sources null-filled. -/
def buildUserFeatures (df : DF) : Except Err DF :=
  if ¬ df.columns.contains "user_id" then
    .error (.keyError "Expected user_id column for user feature aggregation")
  else if ¬ df.columns.contains "session_id" then
    .error (.keyError "Column not found: session_id")
  else
    let dims := dimCols.filter (fun c => df.columns.contains c)
    .ok { columns :=
            ["user_id", "n_sessions", "n_trips"]
            ++ buildMeanFeatures.map (·.1)
            ++ buildRateFeatures.map (·.1)
            ++ buildDiscountRateFeatures.map (·.1)
            ++ ["first_session_ts", "last_session_ts", "session_span_days",
                "sessions_per_active_day"]
            ++ dims
          rows := (groupKeys df).map (buildFeatureRowFor df dims) }

/-! ## Segmentation evaluation (`segmentation/evaluation.py`,
`segmentation/pipeline.py`)

The scikit-learn calls (`StandardScaler.fit_transform`,
`PCA.fit_transform`, `KMeans.fit_predict` with its inertia,
`silhouette_score`, `adjusted_rand_score`) are external library calls and
appear as function parameters; the embedded control flow is the
repository's. -/

/-- `PCAConfig.n_components`: either an int count or a float variance
target (`int | float` in the source). -/
inductive NComponents where
  | int (n : Int)
  | float (q : ℚ)
deriving DecidableEq, Repr

/-- `EvaluationConfig` (evaluation.py). -/
structure EvaluationConfig where
  features : List String
  random_state : Option Int := some 42
  n_init : Int := 10
  pca : Option NComponents := none
deriving DecidableEq, Repr

/-- A feature matrix: one inner list per sample. -/
abbrev Matrix : Type := List (List ℚ)

/-- An abstract `KMeans(n_clusters, random_state, n_init).fit_predict(data)`
call, returning the labels and the fitted inertia. -/
abbrev KMeansFit : Type := Int → Option Int → Int → Matrix → List Int × ℚ

/-- `_validate_features(df, features)` (pipeline.py 42-54): `KeyError` for
missing feature columns, `ValueError` for nulls after numeric coercion,
else the selected numeric matrix. -/
def validateFeatures (df : DF) (features : List String) : Except Err Matrix :=
  let missing := features.filter (fun c => ¬ df.columns.contains c)
  if ¬ missing.isEmpty then
    .error (.keyError
      ("Missing feature columns: " ++ String.intercalate ", " missing))
  else
    let bad := features.filter (fun c =>
      df.rows.any (fun r => (cellOf r c).isNone))
    if ¬ bad.isEmpty then
      .error (.valueError
        ("Features contain missing values after coercion: "
          ++ String.intercalate ", " bad))
    else
      .ok (df.rows.map (fun r => features.map (fun c => (cellOf r c).getD 0)))

/-- `_validate_evaluation_config(config, n_features)` (evaluation.py 48-66). -/
def validateEvaluationConfig (config : EvaluationConfig) (nFeatures : Nat) :
    Except Err Unit :=
  if config.features.isEmpty then
    .error (.valueError "EvaluationConfig.features must include at least one column")
  else if config.n_init < 1 then
    .error (.valueError "EvaluationConfig.n_init must be at least 1")
  else
    match config.pca with
    | none => .ok ()
    | some (.float q) =>
        if ¬ (0 < q ∧ q ≤ 1) then
          .error (.valueError "PCA n_components as float must be in (0, 1]")
        else .ok ()
    | some (.int n) =>
        if n < 1 then
          .error (.valueError "PCA n_components must be at least 1")
        else if (nFeatures : Int) < n then
          .error (.valueError "PCA n_components cannot exceed feature count")
        else .ok ()

/-- `_prepare_features(df, config)` (evaluation.py 69-90): validate, scale,
optionally project; `scale` and `pcaf` stand for the scikit-learn fits. -/
def prepareFeatures (scale : Matrix → Matrix)
    (pcaf : NComponents → Matrix → Matrix)
    (df : DF) (config : EvaluationConfig) : Except Err Matrix :=
  match validateFeatures df config.features with
  | .error e => .error e
  | .ok fm =>
      match validateEvaluationConfig config config.features.length with
      | .error e => .error e
      | .ok _ =>
          let scaled := scale fm
          match config.pca with
          | none => .ok scaled
          | some nc => .ok (pcaf nc scaled)

/-- `compute_silhouette(features, labels)` (evaluation.py 93-102): `None` for
fewer than 2 samples or fewer than 2 distinct labels, else the library
score `sil`. -/
def computeSilhouette (sil : Matrix → List Int → ℚ)
    (features : Matrix) (labels : List Int) : Option ℚ :=
  if labels.length < 2 then none
  else if labels.dedup.length < 2 then none
  else some (sil features labels)

/-- One row of the `run_k_sweep` result table. -/
structure KRow where
  k : Int
  inertia : Option ℚ
  silhouette : Option ℚ
  status : String
deriving DecidableEq, Repr

/-- `run_k_sweep(df, config, k_values)` (evaluation.py 114-170): guard each
candidate k (`k >= 2` and `k < n_samples`) and record inertia/silhouette
for the valid ones. -/
def runKSweep (scale : Matrix → Matrix) (pcaf : NComponents → Matrix → Matrix)
    (kfit : KMeansFit) (sil : Matrix → List Int → ℚ)
    (df : DF) (config : EvaluationConfig) (kValues : List Int) :
    Except Err (List KRow) :=
  if kValues.isEmpty then
    .error (.valueError "k_values must include at least one candidate")
  else
    match prepareFeatures scale pcaf df config with
    | .error e => .error e
    | .ok m =>
        let nSamples := m.length
        .ok (kValues.map (fun k =>
          if k < 2 then
            { k := k, inertia := none, silhouette := none
              status := "invalid: k must be at least 2" }
          else if (nSamples : Int) ≤ k then
            { k := k, inertia := none, silhouette := none
              status := "invalid: k must be < n_samples" }
          else
            let fit := kfit k config.random_state config.n_init m
            let s := computeSilhouette sil m fit.1
            { k := k, inertia := some fit.2, silhouette := s
              status := if s.isSome then "ok" else "invalid: single cluster" }))

/-- One row of the `run_seed_sweep` result table. -/
structure SeedRow where
  seed : Int
  inertia : ℚ
  silhouette : Option ℚ
  ari_to_reference : ℚ
deriving DecidableEq, Repr

/-- `run_seed_sweep(df, config, k, seeds)` (evaluation.py 173-218): validate
the seed list and k up front with `ValueError`s, then refit once per seed,
with ARI of every later seed computed against the first seed's labels. -/
def runSeedSweep (scale : Matrix → Matrix) (pcaf : NComponents → Matrix → Matrix)
    (kfit : KMeansFit) (sil : Matrix → List Int → ℚ)
    (ari : List Int → List Int → ℚ)
    (df : DF) (config : EvaluationConfig) (k : Int) (seeds : List Int) :
    Except Err (List SeedRow) :=
  if seeds.isEmpty then
    .error (.valueError "seeds must include at least one value")
  else if k < 2 then
    .error (.valueError "k must be at least 2")
  else
    match prepareFeatures scale pcaf df config with
    | .error e => .error e
    | .ok m =>
        if (m.length : Int) ≤ k then
          .error (.valueError "k must be < n_samples")
        else
          match seeds with
          | [] => .ok []
          | s0 :: rest =>
              let fit0 := kfit k (some s0) config.n_init m
              let row0 : SeedRow :=
                { seed := s0, inertia := fit0.2
                  silhouette := computeSilhouette sil m fit0.1
                  ari_to_reference := 1 }
              .ok (row0 :: rest.map (fun s =>
                let fit := kfit k (some s) config.n_init m
                { seed := s, inertia := fit.2
                  silhouette := computeSilhouette sil m fit.1
                  ari_to_reference := ari fit0.1 fit.1 }))

/-! ## Helper lemmas about the outlier-removal loop -/

/-- Pure per-column step of the outlier loop under a valid method: fold the
column's keep-mask into the cumulative mask, skipping degenerate columns. -/
def outlierStep (cfg : OutliersConfig) (rows : List Row)
    (mask : List Bool) (c : String) : List Bool :=
  match colKeepOpt cfg rows c with
  | none => mask
  | some keep => andMask mask keep

/-- Values of a column restricted to the rows a mask keeps. -/
def maskedVals (vals : List (Option ℚ)) (mask : List Bool) : List (Option ℚ) :=
  ((vals.zip mask).filter (fun p => p.2)).map (fun p => p.1)

/-- Modelled from the claim's words (spec §8, first bullet), NOT from the
source: the IQR interval of a configured column computed over the rows
surviving the cumulative intersected keep-mask at the point that column is
processed. The source computes the interval over the full column instead;
the counterexample for C1 separates the two readings. -/
def specMaskedIqrBounds (df : DF) (cfg : EDAConfig) (c : String) :
    Option (ℚ × ℚ) :=
  let cols := cfg.outliers.columns.filter (fun c' => df.columns.contains c')
  let pre := cols.takeWhile (fun c' => c' ≠ c)
  let mask := List.foldl (outlierStep cfg.outliers df.rows)
    (df.rows.map (fun _ => true)) pre
  iqrBounds (maskedVals (colVals df c) mask) cfg.outliers.iqr_multiplier

theorem andMask_getElem_true {a b : List Bool} {i : ℕ}
    (h : (andMask a b)[i]? = some true) :
    a[i]? = some true ∧ b[i]? = some true := by
  unfold andMask at h
  rw [List.getElem?_zipWith] at h
  cases ha : a[i]? with
  | none => rw [ha] at h; simp at h
  | some x =>
    cases hb : b[i]? with
    | none => rw [ha, hb] at h; simp at h
    | some y =>
      rw [ha, hb] at h
      simp only [Option.some.injEq] at h
      have hxy : x = true ∧ y = true := by
        cases x <;> cases y <;> simp_all
      rw [hxy.1, hxy.2]
      exact ⟨rfl, rfl⟩

theorem outlierStep_getElem_true {cfg : OutliersConfig} {rows : List Row}
    {mask : List Bool} {c : String} {i : ℕ}
    (h : (outlierStep cfg rows mask c)[i]? = some true) :
    mask[i]? = some true := by
  unfold outlierStep at h
  cases hk : colKeepOpt cfg rows c with
  | none => rwa [hk] at h
  | some keep => rw [hk] at h; exact (andMask_getElem_true h).1

theorem foldl_outlierStep_getElem_true {cfg : OutliersConfig} {rows : List Row}
    {i : ℕ} :
    ∀ (cols : List String) (mask : List Bool),
      (List.foldl (outlierStep cfg rows) mask cols)[i]? = some true →
      mask[i]? = some true := by
  intro cols
  induction cols with
  | nil => intro mask h; exact h
  | cons c rest ih =>
    intro mask h
    rw [List.foldl_cons] at h
    exact outlierStep_getElem_true (ih _ h)

theorem foldl_outlierStep_keep {cfg : OutliersConfig} {rows : List Row}
    {c : String} {keep : List Bool} {i : ℕ}
    (hk : colKeepOpt cfg rows c = some keep) :
    ∀ (cols : List String) (mask : List Bool), c ∈ cols →
      (List.foldl (outlierStep cfg rows) mask cols)[i]? = some true →
      keep[i]? = some true := by
  intro cols
  induction cols with
  | nil => intro mask hmem; exact absurd hmem (List.not_mem_nil c)
  | cons d rest ih =>
    intro mask hmem h
    rcases List.mem_cons.mp hmem with hcd | hcr
    · subst hcd
      have hstep : (outlierStep cfg rows mask c)[i]? = some true :=
        foldl_outlierStep_getElem_true rest _ h
      unfold outlierStep at hstep
      rw [hk] at hstep
      exact (andMask_getElem_true hstep).2
    · exact ih _ hcr h

theorem filterByMask_mem {rows : List Row} {mask : List Bool} {r : Row}
    (h : r ∈ filterByMask rows mask) :
    ∃ i : ℕ, rows[i]? = some r ∧ mask[i]? = some true := by
  unfold filterByMask at h
  obtain ⟨p, hp, hpr⟩ := List.mem_map.mp h
  obtain ⟨hpz, hps⟩ := List.mem_filter.mp hp
  obtain ⟨i, hi⟩ := List.mem_iff_getElem?.mp hpz
  rw [List.zip, List.getElem?_zipWith] at hi
  refine ⟨i, ?_, ?_⟩
  · cases ha : rows[i]? with
    | none => rw [ha] at hi; simp at hi
    | some a =>
      cases hb : mask[i]? with
      | none => rw [ha, hb] at hi; simp at hi
      | some b =>
        rw [ha, hb] at hi
        simp only [Option.some.injEq] at hi
        rw [← hpr, ← hi]
  · cases ha : rows[i]? with
    | none => rw [ha] at hi; simp at hi
    | some a =>
      cases hb : mask[i]? with
      | none => rw [ha, hb] at hi; simp at hi
      | some b =>
        rw [ha, hb] at hi
        simp only [Option.some.injEq] at hi
        have : p.2 = b := by rw [← hi]
        rw [← this, hps]

theorem removeOutliersLoop_valid {cfg : OutliersConfig} {rows : List Row}
    (hm : cfg.method = "iqr" ∨ cfg.method = "zscore") :
    ∀ (cols : List String) (mask : List Bool)
      (rules : List (String × RuleImpact)),
      ∃ rs, removeOutliersLoop cfg rows cols mask rules =
          .ok (List.foldl (outlierStep cfg rows) mask cols, rs) ∧
        ∀ x ∈ rs, x ∈ rules ∨
          ∃ b a : ℕ, x.2 = RuleImpact.mk (b : Int) (a : Int) ((b : Int) - (a : Int)) := by
  intro cols
  induction cols with
  | nil =>
    intro mask rules
    exact ⟨rules, rfl, fun x hx => Or.inl hx⟩
  | cons c rest ih =>
    intro mask rules
    rw [removeOutliersLoop, if_pos hm]
    cases hk : colKeepOpt cfg rows c with
    | none =>
      obtain ⟨rs, he, hs⟩ := ih mask rules
      refine ⟨rs, ?_, hs⟩
      rw [List.foldl_cons]
      have hstep : outlierStep cfg rows mask c = mask := by
        unfold outlierStep; rw [hk]
      rw [hstep]
      exact he
    | some keep =>
      obtain ⟨rs, he, hs⟩ := ih (andMask mask keep)
        (rules ++ [(c, ⟨(countTrue mask : Int), (countTrue (andMask mask keep) : Int),
          (countTrue mask : Int) - (countTrue (andMask mask keep) : Int)⟩)])
      refine ⟨rs, ?_, ?_⟩
      · rw [List.foldl_cons]
        have hstep : outlierStep cfg rows mask c = andMask mask keep := by
          unfold outlierStep; rw [hk]
        rw [hstep]
        exact he
      · intro x hx
        rcases hs x hx with hmem | hshape
        · rcases List.mem_append.mp hmem with h1 | h2
          · exact Or.inl h1
          · refine Or.inr ?_
            rw [List.mem_singleton.mp h2]
            exact ⟨countTrue mask, countTrue (andMask mask keep), rfl⟩
        · exact Or.inr hshape

theorem removeOutliersLoop_invalid {cfg : OutliersConfig} {rows : List Row}
    (hm : ¬ (cfg.method = "iqr" ∨ cfg.method = "zscore"))
    (c : String) (cols : List String) (mask : List Bool)
    (rules : List (String × RuleImpact)) :
    removeOutliersLoop cfg rows (c :: cols) mask rules =
      .error (.valueError "outliers.method must be one of: iqr, zscore") := by
  rw [removeOutliersLoop, if_neg hm]

theorem andMask_right_comm :
    ∀ (m a b : List Bool), andMask (andMask m a) b = andMask (andMask m b) a := by
  intro m
  induction m with
  | nil => intro a b; rfl
  | cons x xs ih =>
    intro a b
    cases a with
    | nil => cases b <;> rfl
    | cons p ps =>
      cases b with
      | nil => rfl
      | cons q qs =>
        show (x && p && q) :: andMask (andMask xs ps) qs =
          (x && q && p) :: andMask (andMask xs qs) ps
        rw [ih ps qs]
        have : (x && p && q) = (x && q && p) := by
          cases x <;> cases p <;> cases q <;> rfl
        rw [this]

theorem outlierStep_right_comm (cfg : OutliersConfig) (rows : List Row)
    (m : List Bool) (c d : String) :
    outlierStep cfg rows (outlierStep cfg rows m c) d =
      outlierStep cfg rows (outlierStep cfg rows m d) c := by
  unfold outlierStep
  cases hc : colKeepOpt cfg rows c with
  | none => cases hd : colKeepOpt cfg rows d <;> rfl
  | some kc =>
    cases hd : colKeepOpt cfg rows d with
    | none => rfl
    | some kd => exact andMask_right_comm m kc kd

/-- Replace the configured outlier column list, keeping every other setting. -/
def withOutlierColumns (cfg : EDAConfig) (cols : List String) : EDAConfig :=
  { cfg with outliers := { cfg.outliers with columns := cols } }

/-- C4. For every input DataFrame and every pair of configs identical except
for the order of `outliers.columns`, `remove_outliers` returns the same
final surviving rows (same cleaned frame; only the per-column `rows_removed`
attribution may differ), and the same error when the method is invalid. -/
theorem remove_outliers_perm_invariant (df : DF) (cfg : EDAConfig)
    (cols' : List String) (hperm : cfg.outliers.columns.Perm cols') :
    (removeOutliers df cfg).map Prod.fst =
      (removeOutliers df (withOutlierColumns cfg cols')).map Prod.fst := by
  have hpf : (cfg.outliers.columns.filter (fun c => df.columns.contains c)).Perm
      (cols'.filter (fun c => df.columns.contains c)) :=
    hperm.filter _
  unfold removeOutliers withOutlierColumns
  simp only
  by_cases h1 : (cfg.outliers.columns.filter
      (fun c => df.columns.contains c)).isEmpty = true
  · have h2 : (cols'.filter (fun c => df.columns.contains c)).isEmpty = true := by
      rw [List.isEmpty_iff] at h1 ⊢
      exact List.Perm.eq_nil (h1 ▸ hpf.symm)
    rw [if_pos h1, if_pos h2]
  · have h2 : ¬ (cols'.filter (fun c => df.columns.contains c)).isEmpty = true := by
      intro hc
      rw [List.isEmpty_iff] at hc h1
      exact h1 (List.Perm.eq_nil (hc ▸ hpf))
    rw [if_neg h1, if_neg h2]
    by_cases hm : cfg.outliers.method = "iqr" ∨ cfg.outliers.method = "zscore"
    · obtain ⟨rs1, he1, _⟩ := @removeOutliersLoop_valid cfg.outliers df.rows hm
        (cfg.outliers.columns.filter (fun c => df.columns.contains c))
        (df.rows.map (fun _ => true)) []
      obtain ⟨rs2, he2, _⟩ :=
        @removeOutliersLoop_valid { cfg.outliers with columns := cols' } df.rows hm
        (cols'.filter (fun c => df.columns.contains c))
        (df.rows.map (fun _ => true)) []
      rw [he1, he2]
      simp only [Except.map]
      have hstepeq : outlierStep { cfg.outliers with columns := cols' } df.rows =
          outlierStep cfg.outliers df.rows := rfl
      rw [hstepeq]
      have hmask := hpf.foldl_eq'
        (fun x _ y _ z => outlierStep_right_comm cfg.outliers df.rows z x y)
        (df.rows.map (fun _ => true))
      rw [hmask]
    · rcases hcl : cfg.outliers.columns.filter (fun c => df.columns.contains c) with
        _ | ⟨c, rest⟩
      · rw [hcl] at h1; simp at h1
      · rcases hcl' : cols'.filter (fun c => df.columns.contains c) with
          _ | ⟨c', rest'⟩
        · rw [hcl'] at h2; simp at h2
        · rw [@removeOutliersLoop_invalid cfg.outliers df.rows hm c rest
            (df.rows.map (fun _ => true)) []]
          rw [@removeOutliersLoop_invalid { cfg.outliers with columns := cols' }
            df.rows hm c' rest' (df.rows.map (fun _ => true)) []]

/-- C1 (amended). Under the `iqr` method, every row of the frame returned by
`remove_outliers` has, in each configured, present, non-degenerate column,
either a null value or a value within `[Q1 - m*IQR, Q3 + m*IQR]`, where the
quantiles are computed over the ORIGINAL FULL column (all input rows,
nulls dropped) — not over the rows surviving the cumulative mask. -/
theorem remove_outliers_iqr_full_column_bounds
    (df : DF) (cfg : EDAConfig) (c : String) (lo hi : ℚ) (r : Row) (v : ℚ)
    (hm : cfg.outliers.method = "iqr")
    (hc : c ∈ cfg.outliers.columns)
    (hcd : c ∈ df.columns)
    (hb : iqrBounds (colVals df c) cfg.outliers.iqr_multiplier = some (lo, hi))
    (hmem : (removeOutliers df cfg).map (fun p => p.1.rows.contains r) = .ok true)
    (hv : cellOf r c = some v) :
    lo ≤ v ∧ v ≤ hi := by
  have hcf : c ∈ cfg.outliers.columns.filter (fun c' => df.columns.contains c') := by
    rw [List.mem_filter]
    exact ⟨hc, by simpa using hcd⟩
  have hne : ¬ (cfg.outliers.columns.filter
      (fun c' => df.columns.contains c')).isEmpty = true := by
    intro h0
    rw [List.isEmpty_iff] at h0
    rw [h0] at hcf
    exact absurd hcf (List.not_mem_nil c)
  have hm' : cfg.outliers.method = "iqr" ∨ cfg.outliers.method = "zscore" :=
    Or.inl hm
  unfold removeOutliers at hmem
  rw [if_neg hne] at hmem
  obtain ⟨rs, he, _⟩ := removeOutliersLoop_valid hm'
    (cfg.outliers.columns.filter (fun c' => df.columns.contains c'))
    (df.rows.map (fun _ => true)) []
  rw [he] at hmem
  simp only [Except.map, Except.ok.injEq] at hmem
  have hrmem : r ∈ filterByMask df.rows
      (List.foldl (outlierStep cfg.outliers df.rows)
        (df.rows.map (fun _ => true))
        (cfg.outliers.columns.filter (fun c' => df.columns.contains c'))) := by
    simpa using hmem
  obtain ⟨i, hri, hmi⟩ := filterByMask_mem hrmem
  have hkeep : colKeepOpt cfg.outliers df.rows c =
      some ((colVals df c).map (fun w =>
        match w with
        | none => true
        | some x => decide (lo ≤ x ∧ x ≤ hi))) := by
    unfold colKeepOpt iqrKeepMask
    rw [if_pos hm]
    show (match iqrBounds (colVals df c) cfg.outliers.iqr_multiplier with
      | none => none
      | some (lo, hi) => some ((colVals df c).map (fun w =>
          match w with
          | none => true
          | some x => decide (lo ≤ x ∧ x ≤ hi)))) = _
    rw [hb]
    rfl
  have hkt := foldl_outlierStep_keep hkeep _ _ hcf hmi
  rw [List.getElem?_map] at hkt
  have hvi : (colVals df c)[i]? = some (cellOf r c) := by
    unfold colVals
    rw [List.getElem?_map, hri]
    rfl
  rw [hvi] at hkt
  have hkt' : (match cellOf r c with
      | none => true
      | some x => decide (lo ≤ x ∧ x ≤ hi)) = true := by
    have := Option.some.inj hkt
    exact this
  rw [hv] at hkt'
  simpa using hkt'

/-- C9. Every `RuleImpact` record produced by `apply_validity_rules` (the
`invalid_hotel_nights` rule) and by `remove_outliers` (one per processed
column) satisfies `rows_removed == rows_before - rows_after` and
`rows_after >= 0`. -/
theorem rule_impact_invariant (df : DF) (cfg : EDAConfig) (name : String)
    (ri : RuleImpact) :
    ((removeOutliers df cfg).map (fun p => p.2.contains (name, ri)) = .ok true →
      ri.rows_removed = ri.rows_before - ri.rows_after ∧ 0 ≤ ri.rows_after) ∧
    ((applyValidityRules df cfg).map (fun r => r.rules.contains (name, ri)) = .ok true →
      ri.rows_removed = ri.rows_before - ri.rows_after ∧ 0 ≤ ri.rows_after) := by
  constructor
  · intro h
    unfold removeOutliers at h
    by_cases h1 : (cfg.outliers.columns.filter
        (fun c => df.columns.contains c)).isEmpty = true
    · rw [if_pos h1] at h
      simp [Except.map] at h
    · rw [if_neg h1] at h
      by_cases hm : cfg.outliers.method = "iqr" ∨ cfg.outliers.method = "zscore"
      · obtain ⟨rs, he, hs⟩ := @removeOutliersLoop_valid cfg.outliers df.rows hm
          (cfg.outliers.columns.filter (fun c => df.columns.contains c))
          (df.rows.map (fun _ => true)) []
        rw [he] at h
        simp only [Except.map, Except.ok.injEq] at h
        have hmem : (name, ri) ∈ rs := by simpa using h
        rcases hs _ hmem with hnil | ⟨b, a, hba⟩
        · exact absurd hnil (List.not_mem_nil _)
        · refine ⟨?_, ?_⟩
          · show ri.rows_removed = ri.rows_before - ri.rows_after
            have : ri = RuleImpact.mk (b : Int) (a : Int) ((b : Int) - (a : Int)) := hba
            rw [this]
          · have : ri = RuleImpact.mk (b : Int) (a : Int) ((b : Int) - (a : Int)) := hba
            rw [this]
            exact Int.natCast_nonneg a
      · rcases hcl : cfg.outliers.columns.filter (fun c => df.columns.contains c) with
          _ | ⟨c, rest⟩
        · rw [hcl] at h1; simp at h1
        · rw [hcl, @removeOutliersLoop_invalid cfg.outliers df.rows hm c rest
            (df.rows.map (fun _ => true)) []] at h
          simp [Except.map] at h
  · intro h
    unfold applyValidityRules at h
    by_cases hn : df.columns.contains "nights" = true
    · rw [if_neg (by simpa using hn)] at h
      by_cases hp : cfg.cleaning.invalid_hotel_nights_policy = "drop"
      · rw [if_pos hp] at h
        simp only [Except.map, Except.ok.injEq] at h
        have hmem : (name, ri) ∈ [("invalid_hotel_nights",
            RuleImpact.mk (df.rows.length : Int)
              ((df.rows.filter (fun r => ¬ invalidNightsRow r)).length : Int)
              ((df.rows.length : Int) -
                ((df.rows.filter (fun r => ¬ invalidNightsRow r)).length : Int)))] := by
          simpa using h
        have heq := List.mem_singleton.mp hmem
        have hri : ri = RuleImpact.mk (df.rows.length : Int)
            ((df.rows.filter (fun r => ¬ invalidNightsRow r)).length : Int)
            ((df.rows.length : Int) -
              ((df.rows.filter (fun r => ¬ invalidNightsRow r)).length : Int)) :=
          congrArg Prod.snd heq
        rw [hri]
        exact ⟨rfl, Int.natCast_nonneg _⟩
      · rw [if_neg hp] at h
        cases hf : fixInvalidHotelNights df cfg.cleaning.invalid_hotel_nights_policy with
        | error e => rw [hf] at h; simp [Except.map] at h
        | ok fixed =>
          rw [hf] at h
          simp only [Except.map, Except.ok.injEq] at h
          have hmem : (name, ri) ∈ [("invalid_hotel_nights",
              RuleImpact.mk (df.rows.length : Int) (fixed.rows.length : Int)
                ((df.rows.length : Int) - (fixed.rows.length : Int)))] := by
            simpa using h
          have heq := List.mem_singleton.mp hmem
          have hri : ri = RuleImpact.mk (df.rows.length : Int)
              (fixed.rows.length : Int)
              ((df.rows.length : Int) - (fixed.rows.length : Int)) :=
            congrArg Prod.snd heq
          rw [hri]
          exact ⟨rfl, Int.natCast_nonneg _⟩
    · rw [if_pos (by simpa using hn)] at h
      simp [Except.map] at h

/-! ## Helper lemmas about the validity rules -/

/-- The per-row action of the recompute policy: overwrite `nights` for
invalid rows, leave valid rows alone. -/
def nightsFixRow (r : Row) : Row :=
  if invalidNightsRow r then setCell r "nights" (recomputeNights r) else r

theorem cellOf_setCell_same (r : Row) (c : String) (v : Option ℚ) :
    cellOf (setCell r c v) c = v := by
  induction r with
  | nil => simp [setCell, cellOf, List.lookup]
  | cons p rest ih =>
    obtain ⟨k, w⟩ := p
    by_cases hk : k = c
    · simp [setCell, hk, cellOf, List.lookup]
    · simp only [setCell, if_neg hk]
      unfold cellOf at ih ⊢
      simp only [List.lookup]
      have : (c == k) = false := by simpa using fun he => hk he.symm
      rw [this]
      exact ih

theorem cellOf_setCell_ne (r : Row) (c c' : String) (v : Option ℚ)
    (h : c' ≠ c) :
    cellOf (setCell r c v) c' = cellOf r c' := by
  induction r with
  | nil =>
    unfold setCell cellOf
    simp only [List.lookup]
    have : (c' == c) = false := by simpa using h
    rw [this]
  | cons p rest ih =>
    obtain ⟨k, w⟩ := p
    by_cases hk : k = c
    · subst hk
      simp only [setCell, if_pos rfl]
      unfold cellOf
      simp only [List.lookup]
      have h1 : (c' == k) = false := by simpa using h
      rw [h1]
    · simp only [setCell, if_neg hk]
      unfold cellOf at ih ⊢
      simp only [List.lookup]
      cases hkc : (c' == k)
      · exact ih
      · rfl

theorem recomputeNights_ge_one {r : Row} {d : ℚ}
    (h : recomputeNights r = some d) : 1 ≤ d := by
  unfold recomputeNights at h
  cases hci : cellOf r "check_in_time" with
  | none => rw [hci] at h; cases hco : cellOf r "check_out_time" <;>
      rw [hco] at h <;> exact absurd h (by simp)
  | some ci =>
    cases hco : cellOf r "check_out_time" with
    | none => rw [hci, hco] at h; exact absurd h (by simp)
    | some co =>
      rw [hci, hco] at h
      simp only at h
      by_cases h1 : (1 : ℚ) ≤ ((Int.ceil ((co - ci) / 86400) : Int) : ℚ)
      · rw [if_pos h1] at h
        cases h
        exact h1
      · rw [if_neg h1] at h
        exact absurd h (by simp)

/-- After the recompute step, a row is invalid iff it was invalid and its
recompute value is null. -/
theorem invalidNightsRow_nightsFixRow (r : Row) :
    invalidNightsRow (nightsFixRow r) =
      (invalidNightsRow r && (recomputeNights r).isNone) := by
  unfold nightsFixRow
  by_cases hir : invalidNightsRow r
  · rw [if_pos hir, hir]
    unfold invalidNightsRow nightsVal
    rw [cellOf_setCell_same]
    cases hrc : recomputeNights r with
    | none => rfl
    | some d =>
      have h1 := recomputeNights_ge_one hrc
      simp only [Option.isNone_some, Bool.true_and]
      have : ¬ (d ≤ 0) := by linarith
      simpa using this
  · rw [if_neg hir]
    have hb : invalidNightsRow r = false := by simpa using hir
    rw [hb]
    rfl

theorem countP_and_split (p q : Row → Bool) (l : List Row) :
    l.countP (fun r => p r && q r) + l.countP (fun r => p r && !q r) =
      l.countP p := by
  induction l with
  | nil => rfl
  | cons r rest ih =>
    simp only [List.countP_cons]
    cases hp : p r <;> cases hq : q r <;> simp <;> omega

/-- `fix_invalid_hotel_nights` under `recompute` with all needed columns
present: rewrite each invalid row's `nights` cell. -/
theorem fixInvalidHotelNights_recompute_eq (df : DF)
    (hn : df.columns.contains "nights" = true)
    (hci : df.columns.contains "check_in_time" = true)
    (hco : df.columns.contains "check_out_time" = true) :
    fixInvalidHotelNights df "recompute" =
      .ok { df with rows := df.rows.map nightsFixRow } := by
  unfold fixInvalidHotelNights
  rw [if_neg (by simpa using hn), if_neg (by decide : ¬("recompute" = "drop")),
    if_neg (by simp), if_neg (by simpa using hci), if_neg (by simpa using hco)]
  rfl

/-- Full characterization of `apply_validity_rules` under the recompute
policy with the needed columns present. -/
theorem applyValidityRules_recompute_char (df : DF) (cfg : EDAConfig)
    (hpol : cfg.cleaning.invalid_hotel_nights_policy = "recompute")
    (hn : df.columns.contains "nights" = true)
    (hci : df.columns.contains "check_in_time" = true)
    (hco : df.columns.contains "check_out_time" = true) :
    applyValidityRules df cfg =
      .ok { df := { df with rows := df.rows.map nightsFixRow }
            rules := [("invalid_hotel_nights",
              ⟨(df.rows.length : Int), ((df.rows.map nightsFixRow).length : Int),
               (df.rows.length : Int) - ((df.rows.map nightsFixRow).length : Int)⟩)]
            meta := .recomputePolicy
              ((df.rows.countP invalidNightsRow : ℕ) : Int)
              (((df.rows.zip (df.rows.map nightsFixRow)).countP (fun p =>
                invalidNightsRow p.1 &&
                  (match cellOf p.2 "nights" with
                   | some v => decide (1 ≤ v)
                   | none => false)) : ℕ) : Int)
              (((df.rows.countP invalidNightsRow : ℕ) : Int) -
                (((df.rows.zip (df.rows.map nightsFixRow)).countP (fun p =>
                  invalidNightsRow p.1 &&
                    (match cellOf p.2 "nights" with
                     | some v => decide (1 ≤ v)
                     | none => false)) : ℕ) : Int))
            checks := buildValidationChecks df } := by
  unfold applyValidityRules
  rw [if_neg (by simpa using hn), hpol,
    if_neg (by decide : ¬("recompute" = "drop")),
    fixInvalidHotelNights_recompute_eq df hn hci hco]

/-- When `apply_validity_rules` succeeds under recompute with `nights`
present, the check-in/check-out columns were present. -/
theorem applyValidityRules_ok_check_cols (df : DF) (cfg : EDAConfig)
    (hpol : cfg.cleaning.invalid_hotel_nights_policy = "recompute")
    (hn : df.columns.contains "nights" = true)
    (hok : (applyValidityRules df cfg).isOk = true) :
    df.columns.contains "check_in_time" = true ∧
      df.columns.contains "check_out_time" = true := by
  by_cases hci : df.columns.contains "check_in_time" = true
  · by_cases hco : df.columns.contains "check_out_time" = true
    · exact ⟨hci, hco⟩
    · exfalso
      unfold applyValidityRules at hok
      rw [if_neg (by simpa using hn), hpol,
        if_neg (by decide : ¬("recompute" = "drop"))] at hok
      have hfix : fixInvalidHotelNights df "recompute" =
          .error (.keyError "check_out_time") := by
        unfold fixInvalidHotelNights
        rw [if_neg (by simpa using hn),
          if_neg (by decide : ¬("recompute" = "drop")), if_neg (by simp),
          if_neg (by simpa using hci), if_pos (by simpa using hco)]
      rw [hfix] at hok
      simp [Except.isOk, Except.toBool] at hok
  · exfalso
    unfold applyValidityRules at hok
    rw [if_neg (by simpa using hn), hpol,
      if_neg (by decide : ¬("recompute" = "drop"))] at hok
    have hfix : fixInvalidHotelNights df "recompute" =
        .error (.keyError "check_in_time") := by
      unfold fixInvalidHotelNights
      rw [if_neg (by simpa using hn),
        if_neg (by decide : ¬("recompute" = "drop")), if_neg (by simp),
        if_pos (by simpa using hci)]
    rw [hfix] at hok
    simp [Except.isOk, Except.toBool] at hok

theorem countP_map_nightsFix (L : List Row) :
    (L.map nightsFixRow).countP invalidNightsRow =
      L.countP (fun r => invalidNightsRow r && (recomputeNights r).isNone) := by
  rw [List.countP_map]
  exact List.countP_congr (fun r _ => by
    simp only [Function.comp]
    rw [invalidNightsRow_nightsFixRow r])

theorem countP_zip_nightsFix (L : List Row) :
    (L.zip (L.map nightsFixRow)).countP (fun p =>
        invalidNightsRow p.1 &&
          (match cellOf p.2 "nights" with
           | some v => decide (1 ≤ v)
           | none => false)) =
      L.countP (fun r => invalidNightsRow r && (recomputeNights r).isSome) := by
  induction L with
  | nil => rfl
  | cons r rest ih =>
    simp only [List.map_cons, List.zip_cons_cons, List.countP_cons, ih]
    congr 1
    by_cases hir : invalidNightsRow r
    · rw [hir]
      simp only [Bool.true_and]
      unfold nightsFixRow
      rw [if_pos hir, cellOf_setCell_same]
      cases hrc : recomputeNights r with
      | none => rfl
      | some d =>
        have h1 := recomputeNights_ge_one hrc
        simp [h1]
    · have hb : invalidNightsRow r = false := by simpa using hir
      rw [hb]
      rfl

/-- C3. Idempotence of the recompute policy: applying
`apply_validity_rules` a second time to the frame returned by a first
application under policy `recompute` performs zero additional corrections —
the second pass's `invalid_detected` equals the first pass's
`still_missing` (and in particular the second pass succeeds whenever the
first one does). -/
theorem apply_validity_recompute_idempotent (df : DF) (cfg : EDAConfig)
    (hpol : cfg.cleaning.invalid_hotel_nights_policy = "recompute")
    (hn : df.columns.contains "nights" = true) :
    (applyValidityRules df cfg).map (fun r1 =>
        (applyValidityRules r1.df cfg).map (fun r2 => r2.meta.invalidDetected)) =
      (applyValidityRules df cfg).map (fun r1 =>
        (Except.ok r1.meta.stillMissing : Except Err (Option Int))) := by
  by_cases hok : (applyValidityRules df cfg).isOk = true
  · obtain ⟨hci, hco⟩ := applyValidityRules_ok_check_cols df cfg hpol hn hok
    rw [applyValidityRules_recompute_char df cfg hpol hn hci hco]
    simp only [Except.map]
    rw [applyValidityRules_recompute_char
      { df with rows := df.rows.map nightsFixRow } cfg hpol hn hci hco]
    simp only [Except.map, AnomalyMeta.invalidDetected, AnomalyMeta.stillMissing]
    have h1 := countP_map_nightsFix df.rows
    have h2 := countP_zip_nightsFix df.rows
    have h3 := countP_and_split invalidNightsRow
      (fun r => (recomputeNights r).isSome) df.rows
    have h4 : df.rows.countP (fun r =>
        invalidNightsRow r && !(recomputeNights r).isSome) =
        df.rows.countP (fun r =>
          invalidNightsRow r && (recomputeNights r).isNone) :=
      List.countP_congr (fun r _ => by
        cases hrc : recomputeNights r <;> simp [hrc])
    rw [h4] at h3
    have hgoal : ((df.rows.map nightsFixRow).countP invalidNightsRow : Int) =
        (df.rows.countP invalidNightsRow : Int) -
          ((df.rows.zip (df.rows.map nightsFixRow)).countP (fun p =>
            invalidNightsRow p.1 &&
              (match cellOf p.2 "nights" with
               | some v => decide (1 ≤ v)
               | none => false)) : Int) := by
      rw [h1, h2]
      omega
    rw [hgoal]
  · cases happ : applyValidityRules df cfg with
    | error e => rfl
    | ok r => rw [happ] at hok; simp [Except.isOk, Except.toBool] at hok

/-- C6. Frame property of the recompute policy: the cleaned frame has the
same number of rows, every non-`nights` cell is unchanged, a valid
`nights` value is kept, and an invalid one is overwritten with
`ceil((check_out_time - check_in_time) / 1 day)` when that is `>= 1`, else
null. -/
theorem apply_validity_recompute_frame (df : DF) (cfg : EDAConfig)
    (hpol : cfg.cleaning.invalid_hotel_nights_policy = "recompute")
    (hn : df.columns.contains "nights" = true)
    (hok : (applyValidityRules df cfg).isOk = true) :
    (applyValidityRules df cfg).map (fun r => r.df.rows.length) =
        .ok df.rows.length ∧
      ∀ i : ℕ, ∀ row : Row, df.rows[i]? = some row →
        (∀ c : String, c ≠ "nights" →
          (applyValidityRules df cfg).map
              (fun r => (r.df.rows[i]?).map (fun row' => cellOf row' c)) =
            .ok (some (cellOf row c))) ∧
        (applyValidityRules df cfg).map
            (fun r => (r.df.rows[i]?).map (fun row' => cellOf row' "nights")) =
          .ok (some (if invalidNightsRow row then recomputeNights row
            else cellOf row "nights")) := by
  obtain ⟨hci, hco⟩ := applyValidityRules_ok_check_cols df cfg hpol hn hok
  rw [applyValidityRules_recompute_char df cfg hpol hn hci hco]
  simp only [Except.map]
  refine ⟨by rw [List.length_map], ?_⟩
  intro i row hrow
  have hmap : (df.rows.map nightsFixRow)[i]? = some (nightsFixRow row) := by
    rw [List.getElem?_map, hrow]
    rfl
  constructor
  · intro c hc
    rw [hmap]
    simp only [Option.map_some']
    unfold nightsFixRow
    by_cases hir : invalidNightsRow row
    · rw [if_pos hir, cellOf_setCell_ne _ _ _ _ hc]
    · rw [if_neg hir]
  · rw [hmap]
    simp only [Option.map_some']
    unfold nightsFixRow
    by_cases hir : invalidNightsRow row
    · rw [if_pos hir, if_pos hir, cellOf_setCell_same]
    · rw [if_neg hir, if_neg hir]

/-- C7 (amended). When the `nights` column is present, a policy other than
`recompute`/`drop` fails with the configuration `ValueError`; when `nights`
is absent the policy is never consulted and no error is raised (see the
counterexample). -/
theorem apply_validity_rules_bad_policy (df : DF) (cfg : EDAConfig)
    (hn : df.columns.contains "nights" = true)
    (h1 : cfg.cleaning.invalid_hotel_nights_policy ≠ "recompute")
    (h2 : cfg.cleaning.invalid_hotel_nights_policy ≠ "drop") :
    applyValidityRules df cfg = .error (.valueError
      "cleaning.invalid_hotel_nights_policy must be one of: recompute, drop") := by
  unfold applyValidityRules
  rw [if_neg (by simpa using hn), if_neg h2]
  have hfix : fixInvalidHotelNights df cfg.cleaning.invalid_hotel_nights_policy =
      .error (.valueError
        "cleaning.invalid_hotel_nights_policy must be one of: recompute, drop") := by
    unfold fixInvalidHotelNights
    rw [if_neg (by simpa using hn), if_neg h2, if_pos h1]
  rw [hfix]

/-! ## Aggregation theorems -/

theorem aggregateRowFor_userId (df : DF) (dims : List String) (k : Option ℚ) :
    cellOf (aggregateRowFor df dims k) "user_id" = k := by
  with_unfolding_all rfl

theorem buildFeatureRowFor_userId (df : DF) (dims : List String) (k : Option ℚ) :
    cellOf (buildFeatureRowFor df dims k) "user_id" = k := by
  with_unfolding_all rfl

/-- C2 (amended). With `user_id` present, `aggregate_user_level` succeeds
iff all ten metric columns are present — in that case absent DIMENSION
columns are simply omitted from the output — while an absent METRIC column
makes pandas raise a `KeyError` (see the counterexample). -/
theorem aggregate_user_level_missing_columns (df : DF)
    (hu : df.columns.contains "user_id" = true) :
    ((∀ c ∈ aggregateMetricCols, df.columns.contains c = true) →
        (aggregateUserLevel df).isOk = true ∧
        (aggregateUserLevel df).map DF.columns =
          .ok (aggregateOutputCols ++
            dimCols.filter (fun c => df.columns.contains c))) ∧
      (∀ c : String,
        aggregateMetricCols.find? (fun c' => ¬ df.columns.contains c') = some c →
        aggregateUserLevel df = .error (.keyError ("Column not found: " ++ c))) := by
  constructor
  · intro hall
    have hfind : aggregateMetricCols.find?
        (fun c' => ¬ df.columns.contains c') = none := by
      rw [List.find?_eq_none]
      intro x hx
      have hx2 : x ∈ df.columns := by simpa using hall x hx
      simp [hx2]
    unfold aggregateUserLevel
    rw [if_neg (by simpa using hu), hfind]
    exact ⟨rfl, rfl⟩
  · intro c hfind
    unfold aggregateUserLevel
    rw [if_neg (by simpa using hu), hfind]

/-- C5. Both `aggregate_user_level` and `build_user_features` produce, when
they succeed, exactly one output row per distinct `user_id` value of the
input, with all null user ids grouped into a single key; the group-key
list is duplicate-free and contains exactly the `user_id` values present
in the input. -/
theorem aggregate_one_row_per_user (df : DF) :
    (aggregateUserLevel df).map
        (fun out => out.rows.map (fun r => cellOf r "user_id")) =
      (aggregateUserLevel df).map (fun _ => groupKeys df) ∧
    (buildUserFeatures df).map
        (fun out => out.rows.map (fun r => cellOf r "user_id")) =
      (buildUserFeatures df).map (fun _ => groupKeys df) ∧
    (groupKeys df).Nodup ∧
    ∀ v : Option ℚ,
      v ∈ groupKeys df ↔ v ∈ df.rows.map (fun r => cellOf r "user_id") := by
  have hperm : (groupKeys df).Perm
      ((df.rows.map (fun r => cellOf r "user_id")).dedup) :=
    List.perm_insertionSort keyLE _
  refine ⟨?_, ?_, ?_, ?_⟩
  · unfold aggregateUserLevel
    by_cases hu : df.columns.contains "user_id" = true
    · rw [if_neg (by simpa using hu)]
      cases hf : aggregateMetricCols.find? (fun c' => ¬ df.columns.contains c') with
      | some c => rfl
      | none =>
        simp only [Except.map, List.map_map]
        congr 1
        refine List.map_congr_left (fun k _ => ?_) |>.trans (List.map_id _)
        exact aggregateRowFor_userId df
          (dimCols.filter (fun c => df.columns.contains c)) k
    · rw [if_pos (by simpa using hu)]
      rfl
  · unfold buildUserFeatures
    by_cases hu : df.columns.contains "user_id" = true
    · rw [if_neg (by simpa using hu)]
      by_cases hs : df.columns.contains "session_id" = true
      · rw [if_neg (by simpa using hs)]
        simp only [Except.map, List.map_map]
        congr 1
        refine List.map_congr_left (fun k _ => ?_) |>.trans (List.map_id _)
        exact buildFeatureRowFor_userId df
          (dimCols.filter (fun c => df.columns.contains c)) k
      · rw [if_pos (by simpa using hs)]
        rfl
    · rw [if_pos (by simpa using hu)]
      rfl
  · exact hperm.nodup_iff.mpr (List.nodup_dedup _)
  · intro v
    rw [hperm.mem_iff, List.mem_dedup]

/-! ## Segmentation evaluation theorems -/

/-- C8. In `run_k_sweep`, each candidate `k < 2` yields the row
`{k, None, None, "invalid: k must be at least 2"}` and each `k >= 2` with
`k >= n_samples` yields `{k, None, None, "invalid: k must be < n_samples"}`.
The K-Means fitter `kfit` is universally quantified and absent from both
right-hand sides: no model is fitted for such a `k`. -/
theorem run_k_sweep_invalid_k
    (scale : Matrix → Matrix) (pcaf : NComponents → Matrix → Matrix)
    (kfit : KMeansFit) (sil : Matrix → List Int → ℚ)
    (df : DF) (config : EvaluationConfig) (kValues : List Int)
    (rows : List KRow) (i : ℕ) (k : Int) (r : KRow)
    (hrun : runKSweep scale pcaf kfit sil df config kValues = .ok rows)
    (hk : kValues[i]? = some k)
    (hr : rows[i]? = some r) :
    (k < 2 → r = ⟨k, none, none, "invalid: k must be at least 2"⟩) ∧
    (2 ≤ k →
      (prepareFeatures scale pcaf df config).map
          (fun m => decide ((m.length : Int) ≤ k)) = .ok true →
      r = ⟨k, none, none, "invalid: k must be < n_samples"⟩) := by
  unfold runKSweep at hrun
  by_cases he : kValues.isEmpty = true
  · rw [if_pos he] at hrun
    exact absurd hrun (by simp)
  · rw [if_neg he] at hrun
    cases hp : prepareFeatures scale pcaf df config with
    | error e => rw [hp] at hrun; exact absurd hrun (by simp)
    | ok m =>
      rw [hp] at hrun
      simp only [Except.ok.injEq] at hrun
      have hri : rows[i]? = some (if k < 2 then
          ({ k := k, inertia := none, silhouette := none
             status := "invalid: k must be at least 2" } : KRow)
        else if (m.length : Int) ≤ k then
          { k := k, inertia := none, silhouette := none
            status := "invalid: k must be < n_samples" }
        else
          let fit := kfit k config.random_state config.n_init m
          let s := computeSilhouette sil m fit.1
          { k := k, inertia := some fit.2, silhouette := s
            status := if s.isSome then "ok" else "invalid: single cluster" }) := by
        rw [← hrun, List.getElem?_map, hk]
        rfl
      rw [hr] at hri
      constructor
      · intro hk2
        rw [if_pos hk2] at hri
        exact Option.some.inj hri
      · intro hk2 hns
        simp only [Except.map, Except.ok.injEq] at hns
        have hle : (m.length : Int) ≤ k := by simpa using hns
        rw [if_neg (by omega), if_pos hle] at hri
        exact Option.some.inj hri

/-- C10. `run_seed_sweep` raises `ValueError` before fitting any model when
the seed list is empty, when `k < 2`, and when `k >= n_samples`; it never
returns a partial or invalid-status table for these cases. The fitter
`kfit` is universally quantified and the error values do not depend on it. -/
theorem run_seed_sweep_guards
    (scale : Matrix → Matrix) (pcaf : NComponents → Matrix → Matrix)
    (kfit : KMeansFit) (sil : Matrix → List Int → ℚ)
    (ari : List Int → List Int → ℚ)
    (df : DF) (config : EvaluationConfig) (k : Int) (seeds : List Int) :
    (seeds = [] →
      runSeedSweep scale pcaf kfit sil ari df config k seeds =
        .error (.valueError "seeds must include at least one value")) ∧
    (seeds ≠ [] → k < 2 →
      runSeedSweep scale pcaf kfit sil ari df config k seeds =
        .error (.valueError "k must be at least 2")) ∧
    (seeds ≠ [] → 2 ≤ k →
      ∀ m : Matrix, prepareFeatures scale pcaf df config = .ok m →
        (m.length : Int) ≤ k →
        runSeedSweep scale pcaf kfit sil ari df config k seeds =
          .error (.valueError "k must be < n_samples")) := by
  refine ⟨?_, ?_, ?_⟩
  · intro hs
    unfold runSeedSweep
    rw [if_pos (by simpa using hs)]
  · intro hs hk2
    unfold runSeedSweep
    rw [if_neg (by simpa using hs), if_pos hk2]
  · intro hs hk2 m hp hle
    unfold runSeedSweep
    rw [if_neg (by simpa using hs), if_neg (by omega), hp]
    simp only [if_pos hle]

/-! ## Concrete frames used by counterexamples and witnesses -/

/-- Five-row frame with two configured outlier columns: column `a` removes
its last row, and column `b`'s full-column quantiles differ from its
quantiles over the rows surviving column `a`. -/
def dfC1 : DF :=
  { columns := ["a", "b"]
    rows :=
      [[("a", some 1), ("b", some 0)],
       [("a", some 2), ("b", some 0)],
       [("a", some 3), ("b", some 0)],
       [("a", some 4), ("b", some 10)],
       [("a", some 100), ("b", some 1000)]] }

/-- IQR config with multiplier 1 over columns `[a, b]`. -/
def cfgC1 : EDAConfig :=
  { cohort := { sign_up_date_start := "2022-01-01", sign_up_date_end := "2022-12-31" }
    extraction := { session_start_min := none, min_sessions := none,
                    min_page_clicks := none }
    cleaning := { invalid_hotel_nights_policy := "recompute" }
    outliers := { method := "iqr", iqr_multiplier := 1, zscore_threshold := 3,
                  columns := ["a", "b"] }
    report := { title := "t", output_format := "md", include_sample_rows := 0 } }

/-- Valid hotel row: `nights = 2`, a 2-day stay. -/
def rowN0 : Row :=
  [("nights", some 2), ("check_in_time", some 0), ("check_out_time", some 172800)]

/-- Invalid hotel row (`nights` null) whose 2-day stay recomputes to 2. -/
def rowN1 : Row :=
  [("nights", none), ("check_in_time", some 0), ("check_out_time", some 172800)]

/-- Invalid hotel row (`nights = 0`) with a null check-in: stays missing. -/
def rowN2 : Row :=
  [("nights", some 0), ("check_in_time", none), ("check_out_time", some 100)]

/-- Three-row hotel frame for the validity-rule witnesses. -/
def dfNights : DF :=
  { columns := ["nights", "check_in_time", "check_out_time"]
    rows := [rowN0, rowN1, rowN2] }

/-- A frame with only a `user_id` column. -/
def dfOnlyUser : DF :=
  { columns := ["user_id"], rows := [[("user_id", some 1)]] }

/-- `cfgC1` with an unknown cleaning policy. -/
def cfgBogus : EDAConfig :=
  { cfgC1 with cleaning := { invalid_hotel_nights_policy := "bogus" } }

/-- A session frame with `user_id` and all ten aggregation metric columns
(plus one dimension column), two users, one null user id. -/
def dfFull : DF :=
  { columns := ["user_id", "session_id", "page_clicks", "flight_booked",
                "hotel_booked", "cancellation", "base_fare_usd",
                "hotel_per_room_usd", "nights", "rooms", "seats", "gender"]
    rows :=
      [[("user_id", some 1), ("session_id", some 10), ("page_clicks", some 3),
        ("flight_booked", some 1), ("hotel_booked", some 0),
        ("cancellation", some 0), ("base_fare_usd", some 200),
        ("hotel_per_room_usd", some 100), ("nights", some 2),
        ("rooms", some 1), ("seats", some 1), ("gender", some 5)],
       [("user_id", some 1), ("session_id", some 11), ("page_clicks", some 5),
        ("flight_booked", some 0), ("hotel_booked", some 1),
        ("cancellation", some 1), ("base_fare_usd", some 300),
        ("hotel_per_room_usd", some 150), ("nights", some 3),
        ("rooms", some 1), ("seats", some 2), ("gender", none)],
       [("user_id", none), ("session_id", some 20), ("page_clicks", some 2),
        ("flight_booked", some 0), ("hotel_booked", some 0),
        ("cancellation", some 0), ("base_fare_usd", some 180),
        ("hotel_per_room_usd", some 90), ("nights", some 1),
        ("rooms", some 1), ("seats", some 1), ("gender", some 7)]] }

/-- Two-sample one-feature frame for the evaluation witnesses. -/
def dfFeat : DF :=
  { columns := ["x"], rows := [[("x", some 1)], [("x", some 2)]] }

/-- Evaluation config over the single feature `x`, no PCA. -/
def cfgEval : EvaluationConfig :=
  { features := ["x"], random_state := some 42, n_init := 10, pca := none }

/-- C1 counterexample. On `dfC1`/`cfgC1` the returned frame keeps the row
with `b = 10`, but the claim's bounds for column `b` — the IQR interval
computed over the rows surviving the cumulative intersected keep-mask at
`b`'s turn, `[Q1 - 1*IQR, Q3 + 1*IQR] = [-5/2, 5]` — exclude 10: the code
computes the interval over the original full column (giving `[-10, 20]`),
so the claim as stated is false. -/
theorem C1_counterexample :
    (removeOutliers dfC1 cfgC1).map (fun p => p.1.rows.map (fun r => cellOf r "b"))
        = .ok [some 0, some 0, some 0, some 10] ∧
      specMaskedIqrBounds dfC1 cfgC1 "b" = some (-(5 / 2 : ℚ), 5) ∧
      ¬ ((-(5 / 2 : ℚ)) ≤ 10 ∧ (10 : ℚ) ≤ 5) := by
  refine ⟨?_, ?_, by norm_num⟩
  · with_unfolding_all rfl
  · with_unfolding_all rfl

/-- C2 counterexample. On a frame that has `user_id` but lacks the metric
columns, `aggregate_user_level` raises `KeyError` (pandas
`g["session_id"]` on a missing column) instead of omitting the column. -/
theorem C2_counterexample :
    aggregateUserLevel dfOnlyUser =
      .error (.keyError "Column not found: session_id") := by
  with_unfolding_all rfl

/-- C7 counterexample. With no `nights` column the configured policy is
never consulted: `apply_validity_rules` succeeds under the unknown policy
`bogus` instead of failing with a `ValueError`. -/
theorem C7_counterexample :
    (applyValidityRules dfOnlyUser cfgBogus).isOk = true := by
  with_unfolding_all rfl

/-! ## Witnesses -/

/-- Witness for C1's amended theorem at `dfC1`/`cfgC1`, column `b`,
full-column bounds `[-10, 20]`, kept row `(a=4, b=10)`. -/
theorem C1_witness :
    cfgC1.outliers.method = "iqr" ∧
    "b" ∈ cfgC1.outliers.columns ∧
    "b" ∈ dfC1.columns ∧
    iqrBounds (colVals dfC1 "b") cfgC1.outliers.iqr_multiplier =
      some (-10, 20) ∧
    (removeOutliers dfC1 cfgC1).map
        (fun p => p.1.rows.contains [("a", some 4), ("b", some 10)]) =
      .ok true ∧
    cellOf [("a", some 4), ("b", some 10)] "b" = some 10 ∧
    ((-10 : ℚ) ≤ 10 ∧ (10 : ℚ) ≤ 20) :=
  ⟨rfl, by with_unfolding_all decide, by with_unfolding_all decide,
   by with_unfolding_all rfl, by with_unfolding_all rfl,
   by with_unfolding_all rfl,
   remove_outliers_iqr_full_column_bounds dfC1 cfgC1 "b" (-10) 20
     [("a", some 4), ("b", some 10)] 10 rfl
     (by with_unfolding_all decide) (by with_unfolding_all decide)
     (by with_unfolding_all rfl) (by with_unfolding_all rfl)
     (by with_unfolding_all rfl)⟩

/-- Witness for C4 at `dfC1`/`cfgC1` against the reversed column list. -/
theorem C4_witness :
    (cfgC1.outliers.columns).Perm ["b", "a"] ∧
    (removeOutliers dfC1 cfgC1).map Prod.fst =
      (removeOutliers dfC1 (withOutlierColumns cfgC1 ["b", "a"])).map Prod.fst :=
  ⟨List.Perm.swap "b" "a" [],
   remove_outliers_perm_invariant dfC1 cfgC1 ["b", "a"]
     (List.Perm.swap "b" "a" [])⟩

/-- Witness for C3 at the hotel frame `dfNights` under policy `recompute`. -/
theorem C3_witness :
    cfgC1.cleaning.invalid_hotel_nights_policy = "recompute" ∧
    dfNights.columns.contains "nights" = true ∧
    (applyValidityRules dfNights cfgC1).map (fun r1 =>
        (applyValidityRules r1.df cfgC1).map (fun r2 => r2.meta.invalidDetected)) =
      (applyValidityRules dfNights cfgC1).map (fun r1 =>
        (Except.ok r1.meta.stillMissing : Except Err (Option Int))) :=
  ⟨rfl, by with_unfolding_all rfl,
   apply_validity_recompute_idempotent dfNights cfgC1 rfl
     (by with_unfolding_all rfl)⟩

/-- Witness for C6 at `dfNights`: row count preserved; row 1's null
`nights` is overwritten per the recompute rule while its other cells are
unchanged. -/
theorem C6_witness :
    cfgC1.cleaning.invalid_hotel_nights_policy = "recompute" ∧
    dfNights.columns.contains "nights" = true ∧
    (applyValidityRules dfNights cfgC1).isOk = true ∧
    (applyValidityRules dfNights cfgC1).map (fun r => r.df.rows.length) =
      .ok dfNights.rows.length ∧
    (applyValidityRules dfNights cfgC1).map
        (fun r => (r.df.rows[1]?).map (fun row' => cellOf row' "check_out_time")) =
      .ok (some (cellOf rowN1 "check_out_time")) ∧
    (applyValidityRules dfNights cfgC1).map
        (fun r => (r.df.rows[1]?).map (fun row' => cellOf row' "nights")) =
      .ok (some (if invalidNightsRow rowN1 then recomputeNights rowN1
        else cellOf rowN1 "nights")) :=
  ⟨rfl, by with_unfolding_all rfl, by with_unfolding_all rfl,
   (apply_validity_recompute_frame dfNights cfgC1 rfl
     (by with_unfolding_all rfl) (by with_unfolding_all rfl)).1,
   ((apply_validity_recompute_frame dfNights cfgC1 rfl
     (by with_unfolding_all rfl) (by with_unfolding_all rfl)).2 1 rowN1
     (by with_unfolding_all rfl)).1 "check_out_time" (by decide),
   ((apply_validity_recompute_frame dfNights cfgC1 rfl
     (by with_unfolding_all rfl) (by with_unfolding_all rfl)).2 1 rowN1
     (by with_unfolding_all rfl)).2⟩

/-- Witness for C7's amended theorem: with `nights` present the unknown
policy `bogus` fails with the configuration `ValueError`. -/
theorem C7_witness :
    dfNights.columns.contains "nights" = true ∧
    cfgBogus.cleaning.invalid_hotel_nights_policy ≠ "recompute" ∧
    cfgBogus.cleaning.invalid_hotel_nights_policy ≠ "drop" ∧
    applyValidityRules dfNights cfgBogus = .error (.valueError
      "cleaning.invalid_hotel_nights_policy must be one of: recompute, drop") :=
  ⟨by with_unfolding_all rfl, by with_unfolding_all decide,
   by with_unfolding_all decide,
   apply_validity_rules_bad_policy dfNights cfgBogus
     (by with_unfolding_all rfl) (by with_unfolding_all decide)
     (by with_unfolding_all decide)⟩

/-- Witness for C2's amended theorem: with all metric columns present the
aggregation succeeds and keeps only the present dimension columns; on
`dfOnlyUser` the first missing metric column (`session_id`) raises. -/
theorem C2_witness :
    dfFull.columns.contains "user_id" = true ∧
    (aggregateUserLevel dfFull).isOk = true ∧
    (aggregateUserLevel dfFull).map DF.columns =
      .ok (aggregateOutputCols ++
        dimCols.filter (fun c => dfFull.columns.contains c)) ∧
    aggregateUserLevel dfOnlyUser =
      .error (.keyError ("Column not found: " ++ "session_id")) :=
  ⟨by with_unfolding_all rfl,
   ((aggregate_user_level_missing_columns dfFull
     (by with_unfolding_all rfl)).1 (by with_unfolding_all decide)).1,
   ((aggregate_user_level_missing_columns dfFull
     (by with_unfolding_all rfl)).1 (by with_unfolding_all decide)).2,
   (aggregate_user_level_missing_columns dfOnlyUser
     (by with_unfolding_all rfl)).2 "session_id" (by with_unfolding_all rfl)⟩

/-- Witness for C5 at `dfFull` (two users plus a null user id). -/
theorem C5_witness :
    ((aggregateUserLevel dfFull).map
        (fun out => out.rows.map (fun r => cellOf r "user_id")) =
      (aggregateUserLevel dfFull).map (fun _ => groupKeys dfFull)) ∧
    (groupKeys dfFull).Nodup ∧
    (some 1 ∈ groupKeys dfFull ↔
      some 1 ∈ dfFull.rows.map (fun r => cellOf r "user_id")) :=
  ⟨(aggregate_one_row_per_user dfFull).1,
   (aggregate_one_row_per_user dfFull).2.2.1,
   (aggregate_one_row_per_user dfFull).2.2.2 (some 1)⟩

/-- Witness for C9: the `a` column's impact record of `remove_outliers` on
`dfC1` and the `invalid_hotel_nights` record of `apply_validity_rules` on
`dfNights`. -/
theorem C9_witness :
    ((removeOutliers dfC1 cfgC1).map
        (fun p => p.2.contains ("a", (⟨5, 4, 1⟩ : RuleImpact))) = .ok true ∧
      ((⟨5, 4, 1⟩ : RuleImpact).rows_removed =
          (⟨5, 4, 1⟩ : RuleImpact).rows_before -
            (⟨5, 4, 1⟩ : RuleImpact).rows_after ∧
        0 ≤ (⟨5, 4, 1⟩ : RuleImpact).rows_after)) ∧
    ((applyValidityRules dfNights cfgC1).map
        (fun r => r.rules.contains
          ("invalid_hotel_nights", (⟨3, 3, 0⟩ : RuleImpact))) = .ok true ∧
      ((⟨3, 3, 0⟩ : RuleImpact).rows_removed =
          (⟨3, 3, 0⟩ : RuleImpact).rows_before -
            (⟨3, 3, 0⟩ : RuleImpact).rows_after ∧
        0 ≤ (⟨3, 3, 0⟩ : RuleImpact).rows_after)) :=
  ⟨⟨by with_unfolding_all rfl,
    (rule_impact_invariant dfC1 cfgC1 "a" ⟨5, 4, 1⟩).1
      (by with_unfolding_all rfl)⟩,
   ⟨by with_unfolding_all rfl,
    (rule_impact_invariant dfNights cfgC1 "invalid_hotel_nights" ⟨3, 3, 0⟩).2
      (by with_unfolding_all rfl)⟩⟩

/-- Witness for C8: on a 2-sample frame, `k = 1` and `k = 5` produce
exactly the two invalid rows, under a fitter that is never consulted. -/
theorem C8_witness :
    (runKSweep id (fun _ m => m) (fun _ _ _ _ => ([], 0)) (fun _ _ => 0)
        dfFeat cfgEval [1, 5] =
      .ok [⟨1, none, none, "invalid: k must be at least 2"⟩,
           ⟨5, none, none, "invalid: k must be < n_samples"⟩]) ∧
    (⟨1, none, none, "invalid: k must be at least 2"⟩ : KRow) =
      ⟨1, none, none, "invalid: k must be at least 2"⟩ ∧
    (⟨5, none, none, "invalid: k must be < n_samples"⟩ : KRow) =
      ⟨5, none, none, "invalid: k must be < n_samples"⟩ :=
  ⟨by with_unfolding_all rfl,
   (run_k_sweep_invalid_k id (fun _ m => m) (fun _ _ _ _ => ([], 0))
     (fun _ _ => 0) dfFeat cfgEval [1, 5]
     [⟨1, none, none, "invalid: k must be at least 2"⟩,
      ⟨5, none, none, "invalid: k must be < n_samples"⟩] 0 1
     ⟨1, none, none, "invalid: k must be at least 2"⟩
     (by with_unfolding_all rfl) rfl rfl).1 (by decide),
   (run_k_sweep_invalid_k id (fun _ m => m) (fun _ _ _ _ => ([], 0))
     (fun _ _ => 0) dfFeat cfgEval [1, 5]
     [⟨1, none, none, "invalid: k must be at least 2"⟩,
      ⟨5, none, none, "invalid: k must be < n_samples"⟩] 1 5
     ⟨5, none, none, "invalid: k must be < n_samples"⟩
     (by with_unfolding_all rfl) rfl rfl).2 (by decide)
     (by with_unfolding_all rfl)⟩

/-- Witness for C10: empty seed list, `k = 1`, and `k = 5` on a 2-sample
frame each fail with the stated `ValueError`, for a fitter that is never
consulted. -/
theorem C10_witness :
    (runSeedSweep id (fun _ m => m) (fun _ _ _ _ => ([], 0)) (fun _ _ => 0)
        (fun _ _ => 0) dfFeat cfgEval 2 [] =
      .error (.valueError "seeds must include at least one value")) ∧
    (runSeedSweep id (fun _ m => m) (fun _ _ _ _ => ([], 0)) (fun _ _ => 0)
        (fun _ _ => 0) dfFeat cfgEval 1 [7] =
      .error (.valueError "k must be at least 2")) ∧
    (runSeedSweep id (fun _ m => m) (fun _ _ _ _ => ([], 0)) (fun _ _ => 0)
        (fun _ _ => 0) dfFeat cfgEval 5 [7] =
      .error (.valueError "k must be < n_samples")) :=
  ⟨(run_seed_sweep_guards id (fun _ m => m) (fun _ _ _ _ => ([], 0))
     (fun _ _ => 0) (fun _ _ => 0) dfFeat cfgEval 2 []).1 rfl,
   (run_seed_sweep_guards id (fun _ m => m) (fun _ _ _ _ => ([], 0))
     (fun _ _ => 0) (fun _ _ => 0) dfFeat cfgEval 1 [7]).2.1
     (by simp) (by decide),
   (run_seed_sweep_guards id (fun _ m => m) (fun _ _ _ _ => ([], 0))
     (fun _ _ => 0) (fun _ _ => 0) dfFeat cfgEval 5 [7]).2.2
     (by simp) (by decide) [[1], [2]] (by with_unfolding_all rfl) (by decide)⟩

end Traveltide
